import Mathlib

/-!
Shallow embedding of `compute_tidal_elevations.py` (pyTMD driver script).

The script reads a csv batch of observation points (Modified Julian Day,
latitude, longitude, input elevation), selects a tide model from a static
dispatch table, calls external collaborator routines (constituent
extractors, delta-time lookup, harmonic synthesizer, minor-constituent
inference), assembles a masked elevation array, and writes one formatted
line per observation point.

Real-valued arrays are modelled as `List Rat` (per point) and
`List (List Rat)` (point times constituent).  The external collaborators
(`extract_tidal_constants`, `extract_netcdf_constants`,
`extract_GOT_constants`, `calc_delta_time`, `predict_tide_drift`,
`infer_minor_corrections`) live in other modules of the package and are
therefore parameters of the embedding (a `Collab` record).  The numpy
masked-array idiom is modelled explicitly: an array carries a data list
and a boolean mask list, mask bit `true` meaning invalid, and iterating a
masked array yields a masked sentinel for masked positions (numpy
`MaskedArray.__getitem__` returns the `masked` constant where the mask is
set, and sequence iteration goes through `__getitem__`).
-/

/-- Errors the script can raise.  `name_error_model_format` models the
Python `NameError` raised at line 241 when no dispatch branch matched and
the local variable `model_format` was never bound; `name_error_amp` the
analogous unbound `amp` after line 241 if a bound `model_format` matched
no extraction branch (unreachable from the catalog);
`no_system_arguments` the explicit
`Exception` raised by `main` when the positional argument list is empty;
`index_error` the Python `IndexError` from an out-of-range list index
such as `arglist[1]` with a single positional argument. -/
inductive Err where
  | name_error_model_format
  | name_error_amp
  | no_system_arguments
  | index_error
deriving DecidableEq

/-- One parsed record of the input csv (line 90): Modified Julian Day,
latitude, longitude, input elevation `h`. -/
structure Row where
  MJD : ℚ
  lat : ℚ
  lon : ℚ
  h : ℚ
deriving DecidableEq

/-- Result of `extract_tidal_constants` / `extract_netcdf_constants`
(lines 242, 246): per-point-per-constituent amplitude and phase in
degrees with a shared validity mask (mask bit `true` means invalid, the
numpy masked-array convention), bathymetry `D`, and the constituent name
list `c`. -/
structure ExtractOut where
  amp : List (List ℚ)
  ph : List (List ℚ)
  mask : List (List Bool)
  D : List ℚ
  c : List String

/-- Result of `extract_GOT_constants` (line 251): amplitude, phase in
degrees, and the validity mask.  The GOT extractor does not return a
constituent list; the constituent names come from the dispatch table. -/
structure GOTOut where
  amp : List (List ℚ)
  ph : List (List ℚ)
  mask : List (List Bool)

/-- The masked complex harmonic-constant array `hc` built at lines
256-259.  Each entry is the (amplitude, phase-in-degrees) pair the
complex value is computed from; the exact complex value of an entry is
`hcC` below (claim C3).  The mask is inherited elementwise from the
extractor output (numpy propagates the operand masks through the
elementwise product `amp * exp(cph)`). -/
structure HcArray where
  data : List (List (ℚ × ℚ))
  mask : List (List Bool)

/-- Argument bundle of a call to the harmonic synthesizer or to the
minor-constituent inference: times, harmonic constants, constituent
names, delta-time array, and the `CORRECTIONS` model-format selector. -/
structure SynthArgs where
  t : List ℚ
  hc : HcArray
  c : List String
  deltat : List ℚ
  corrections : String

/-- External collaborator routines of the pyTMD package, imported at
lines 77-82 and not part of this source file.  Each is modelled as an
abstract function parameter; the `String` arguments carry file paths and
the interpolation `METHOD` keyword exactly as passed by the script.  The
synthesizer and the inference return the `.data` part of their result
(the script only ever reads `.data` of these results, lines 266-270). -/
structure Collab where
  extract_tidal_constants : List ℚ → List ℚ → String → String → String → String → String → ExtractOut
  extract_netcdf_constants : List ℚ → List ℚ → String → String → List String → String → String → ℚ → ExtractOut
  extract_GOT_constants : List ℚ → List ℚ → String → List String → String → ℚ → GOTOut
  calc_delta_time : String → List ℚ → List ℚ
  predict_tide_drift : List ℚ → HcArray → List String → List ℚ → String → List ℚ
  infer_minor_corrections : List ℚ → HcArray → List String → List ℚ → String → List ℚ

/-- Model of `os.path.join` with two components. -/
def path_join (a b : String) : String := a ++ "/" ++ b

/-- One arm of the model dispatch table (lines 94-238).  Fields that a
given arm does not assign are `none`, mirroring the Python locals that
remain unbound in that arm. -/
structure TMDescriptor where
  grid_file : Option String := none
  model_file : Option String := none
  model_directory : Option String := none
  model_files : Option (List String) := none
  reference : String := ""
  model_format : String := ""
  EPSG : Option String := none
  type : Option String := none
  SCALE : Option ℚ := none
  c : Option (List String) := none

/-- Constituent file list shared by the GOT ocean-tide models. -/
def got_files : List String :=
  ["q1.d.gz", "o1.d.gz", "p1.d.gz", "k1.d.gz", "n2.d.gz",
   "m2.d.gz", "s2.d.gz", "k2.d.gz", "s1.d.gz", "m4.d.gz"]

/-- Constituent file list shared by the GOT load-tide models. -/
def got_load_files : List String :=
  ["q1load.d.gz", "o1load.d.gz", "p1load.d.gz", "k1load.d.gz",
   "n2load.d.gz", "m2load.d.gz", "s2load.d.gz", "k2load.d.gz",
   "s1load.d.gz", "m4load.d.gz"]

/-- Constituent name list shared by all GOT models (lines 186 etc). -/
def got_c : List String :=
  ["q1", "o1", "p1", "k1", "n2", "m2", "s2", "k2", "s1", "m4"]

/-- The model dispatch table of `compute_tidal_elevations` (lines
94-238): maps the `TIDE_MODEL` string to the file locations, format,
coordinate system, unit scale and (for GOT) constituent names that the
corresponding `elif` arm binds.  Returns `none` when no arm matches, in
which case the local `model_format` is left unbound. -/
def model_select (tide_dir TIDE_MODEL : String) : Option TMDescriptor :=
  if TIDE_MODEL = "CATS0201" then some
    { grid_file := some (path_join (path_join tide_dir "cats0201_tmd") "grid_CATS")
      model_file := some (path_join (path_join tide_dir "cats0201_tmd") "h0_CATS02_01")
      reference := "https://mail.esr.org/polar_tide_models/Model_CATS0201.html"
      model_format := "OTIS", EPSG := some "4326", type := some "z" }
  else if TIDE_MODEL = "CATS2008" then some
    { grid_file := some (path_join (path_join tide_dir "CATS2008") "grid_CATS2008a_opt")
      model_file := some (path_join (path_join tide_dir "CATS2008") "hf.CATS2008.out")
      reference := "https://www.esr.org/research/polar-tide-models/list-of-polar-tide-models/cats2008/"
      model_format := "OTIS", EPSG := some "CATS2008", type := some "z" }
  else if TIDE_MODEL = "CATS2008_load" then some
    { grid_file := some (path_join (path_join tide_dir "CATS2008a_SPOTL_Load") "grid_CATS2008a_opt")
      model_file := some (path_join (path_join tide_dir "CATS2008a_SPOTL_Load") "h_CATS2008a_SPOTL_load")
      reference := "https://www.esr.org/research/polar-tide-models/list-of-polar-tide-models/cats2008/"
      model_format := "OTIS", EPSG := some "CATS2008", type := some "z" }
  else if TIDE_MODEL = "TPXO9-atlas" then some
    { model_directory := some (path_join tide_dir "TPXO9_atlas")
      grid_file := some "grid_tpxo9_atlas.nc.gz"
      model_files := some ["h_q1_tpxo9_atlas_30.nc.gz", "h_o1_tpxo9_atlas_30.nc.gz",
        "h_p1_tpxo9_atlas_30.nc.gz", "h_k1_tpxo9_atlas_30.nc.gz",
        "h_n2_tpxo9_atlas_30.nc.gz", "h_m2_tpxo9_atlas_30.nc.gz",
        "h_s2_tpxo9_atlas_30.nc.gz", "h_k2_tpxo9_atlas_30.nc.gz",
        "h_m4_tpxo9_atlas_30.nc.gz", "h_ms4_tpxo9_atlas_30.nc.gz",
        "h_mn4_tpxo9_atlas_30.nc.gz", "h_2n2_tpxo9_atlas_30.nc.gz"]
      reference := "http://volkov.oce.orst.edu/tides/tpxo9_atlas.html"
      model_format := "netcdf", type := some "z", SCALE := some (1/1000) }
  else if TIDE_MODEL = "TPXO9.1" then some
    { grid_file := some (path_join (path_join (path_join tide_dir "TPXO9.1") "DATA") "grid_tpxo9")
      model_file := some (path_join (path_join (path_join tide_dir "TPXO9.1") "DATA") "h_tpxo9.v1")
      reference := "http://volkov.oce.orst.edu/tides/global.html"
      model_format := "OTIS", EPSG := some "4326", type := some "z" }
  else if TIDE_MODEL = "TPXO8-atlas" then some
    { grid_file := some (path_join (path_join tide_dir "tpxo8_atlas") "grid_tpxo8atlas_30_v1")
      model_file := some (path_join (path_join tide_dir "tpxo8_atlas") "hf.tpxo8_atlas_30_v1")
      reference := "http://volkov.oce.orst.edu/tides/tpxo8_atlas.html"
      model_format := "ATLAS", EPSG := some "4326", type := some "z" }
  else if TIDE_MODEL = "TPXO7.2" then some
    { grid_file := some (path_join (path_join tide_dir "TPXO7.2_tmd") "grid_tpxo7.2")
      model_file := some (path_join (path_join tide_dir "TPXO7.2_tmd") "h_tpxo7.2")
      reference := "http://volkov.oce.orst.edu/tides/global.html"
      model_format := "OTIS", EPSG := some "4326", type := some "z" }
  else if TIDE_MODEL = "TPXO7.2_load" then some
    { grid_file := some (path_join (path_join tide_dir "TPXO7.2_load") "grid_tpxo6.2")
      model_file := some (path_join (path_join tide_dir "TPXO7.2_load") "h_tpxo7.2_load")
      reference := "http://volkov.oce.orst.edu/tides/global.html"
      model_format := "OTIS", EPSG := some "4326", type := some "z" }
  else if TIDE_MODEL = "AODTM-5" then some
    { grid_file := some (path_join (path_join tide_dir "aodtm5_tmd") "grid_Arc5km")
      model_file := some (path_join (path_join tide_dir "aodtm5_tmd") "h0_Arc5km.oce")
      reference := "https://www.esr.org/research/polar-tide-models/list-of-polar-tide-models/aodtm-5/"
      model_format := "OTIS", EPSG := some "PSNorth", type := some "z" }
  else if TIDE_MODEL = "AOTIM-5" then some
    { grid_file := some (path_join (path_join tide_dir "aotim5_tmd") "grid_Arc5km")
      model_file := some (path_join (path_join tide_dir "aotim5_tmd") "h_Arc5km.oce")
      reference := "https://www.esr.org/research/polar-tide-models/list-of-polar-tide-models/aotim-5/"
      model_format := "OTIS", EPSG := some "PSNorth", type := some "z" }
  else if TIDE_MODEL = "AOTIM-5-2018" then some
    { grid_file := some (path_join (path_join tide_dir "Arc5km2018") "grid_Arc5km2018")
      model_file := some (path_join (path_join tide_dir "Arc5km2018") "h_Arc5km2018")
      reference := "https://www.esr.org/research/polar-tide-models/list-of-polar-tide-models/aotim-5/"
      model_format := "OTIS", EPSG := some "PSNorth", type := some "z" }
  else if TIDE_MODEL = "GOT4.7" then some
    { model_directory := some (path_join (path_join tide_dir "GOT4.7") "grids_oceantide")
      model_files := some got_files, c := some got_c
      reference := "https://denali.gsfc.nasa.gov/personal_pages/ray/MiscPubs/19990089548_1999150788.pdf"
      model_format := "GOT", SCALE := some (1/100) }
  else if TIDE_MODEL = "GOT4.7_load" then some
    { model_directory := some (path_join (path_join tide_dir "GOT4.7") "grids_loadtide")
      model_files := some got_load_files, c := some got_c
      reference := "https://denali.gsfc.nasa.gov/personal_pages/ray/MiscPubs/19990089548_1999150788.pdf"
      model_format := "GOT", SCALE := some (1/1000) }
  else if TIDE_MODEL = "GOT4.8" then some
    { model_directory := some (path_join (path_join tide_dir "got4.8") "grids_oceantide")
      model_files := some got_files, c := some got_c
      reference := "https://denali.gsfc.nasa.gov/personal_pages/ray/MiscPubs/19990089548_1999150788.pdf"
      model_format := "GOT", SCALE := some (1/100) }
  else if TIDE_MODEL = "GOT4.8_load" then some
    { model_directory := some (path_join (path_join tide_dir "got4.8") "grids_loadtide")
      model_files := some got_load_files, c := some got_c
      reference := "https://denali.gsfc.nasa.gov/personal_pages/ray/MiscPubs/19990089548_1999150788.pdf"
      model_format := "GOT", SCALE := some (1/1000) }
  else if TIDE_MODEL = "GOT4.10" then some
    { model_directory := some (path_join (path_join tide_dir "GOT4.10c") "grids_oceantide")
      model_files := some got_files, c := some got_c
      reference := "https://denali.gsfc.nasa.gov/personal_pages/ray/MiscPubs/19990089548_1999150788.pdf"
      model_format := "GOT", SCALE := some (1/100) }
  else if TIDE_MODEL = "GOT4.10_load" then some
    { model_directory := some (path_join (path_join tide_dir "GOT4.10c") "grids_loadtide")
      model_files := some got_load_files, c := some got_c
      reference := "https://denali.gsfc.nasa.gov/personal_pages/ray/MiscPubs/19990089548_1999150788.pdf"
      model_format := "GOT", SCALE := some (1/1000) }
  else none

/-- The catalogued model identifiers (the strings tested by the dispatch
chain, lines 94-238, matching the option list in the file docstring). -/
def catalog_ids : List String :=
  ["CATS0201", "CATS2008", "CATS2008_load", "TPXO9-atlas", "TPXO9.1",
   "TPXO8-atlas", "TPXO7.2", "TPXO7.2_load", "AODTM-5", "AOTIM-5",
   "AOTIM-5-2018", "GOT4.7", "GOT4.7_load", "GOT4.8", "GOT4.8_load",
   "GOT4.10", "GOT4.10_load"]

/-- Decimal digit character for `n % 10`. -/
def digit_char (n : Nat) : Char := Char.ofNat (48 + n % 10)

/-- Exactly `p` decimal digits of `n` (most significant first), as
produced for the fractional part of a fixed-point rendering: digit `k`
(from the left, zero-based) is `n / 10 ^ (p - 1 - k) % 10`. -/
def frac_digits : Nat → Nat → String
  | 0, _ => ""
  | p + 1, n => String.singleton (digit_char (n / 10 ^ p)) ++ frac_digits p n

/-- Round a rational to the nearest integer, ties to even: the rounding
used when a Python float is rendered with a fixed number of decimals.
Ties can only arise here from exactly representable halves. -/
def rnd_half_even (q : ℚ) : ℤ :=
  let f := ⌊q⌋
  let r := q - (f : ℚ)
  if r < 1/2 then f
  else if 1/2 < r then f + 1
  else if f % 2 = 0 then f else f + 1

/-- Model of the Python fixed-point float format with `prec` decimal
places (the `0.6f` and `0.2f` conversions at line 277): round the value
to `prec` decimals, render sign, integer part, a decimal point, and
exactly `prec` fractional digits. -/
def fmt_fixed (prec : Nat) (q : ℚ) : String :=
  let scaled := rnd_half_even (q * ((10 : ℚ) ^ prec))
  let n := scaled.natAbs
  (if q < 0 then "-" else "") ++ Nat.repr (n / 10 ^ prec) ++ "." ++ frac_digits prec (n % 10 ^ prec)

/-- An element obtained by iterating a numpy masked array: masked
positions yield the masked constant (numpy `MaskedArray.__getitem__`
returns `masked` where the mask bit is set, and `for ... in array` goes
through `__getitem__`), unmasked positions yield the stored datum. -/
inductive MaskedElem where
  | masked
  | val (v : ℚ)
deriving DecidableEq

/-- Formatting a masked-array element with a fixed-point conversion: an
unmasked value formats as the number; the masked constant ignores the
format spec and renders as the string form of the masked constant,
which is the placeholder string of two hyphens (numpy
`MaskedConstant.__format__`, present since numpy 1.15, catches the
`TypeError` from `object.__format__` with a nonempty spec, emits a
`FutureWarning`, and falls back to the plain string form; numpy older
than 1.15 raised instead - under no version is the fill value of the
enclosing array produced). -/
def fmt_masked (prec : Nat) : MaskedElem → String
  | .masked => "--"
  | .val v => fmt_fixed prec v

/-- The fill value bound at line 263. -/
def fill_value : ℚ := -9999

/-- Line 265: `tide.mask = np.any(hc.mask, axis=1)` - the output mask
bit of a point is the disjunction of the constituent mask bits of that
point (bit `true` means invalid). -/
def tide_mask (hcmask : List (List Bool)) : List Bool :=
  hcmask.map (fun row => row.any (fun b => b))

/-- Line 270: `tide.data[:] += minor.data[:]` after line 266 assigned
the synthesizer result, so the data array is the elementwise sum of the
synthesizer output and the minor-constituent correction. -/
def tide_data_with_minor (tdata minor : List ℚ) : List ℚ :=
  List.zipWith (fun a b => a + b) tdata minor

/-- Line 272: `tide.data[tide.mask] = tide.fill_value` - masked
positions of the data array are overwritten with the fill value. -/
def tide_data_filled (tdata : List ℚ) (tmask : List Bool) : List ℚ :=
  List.zipWith (fun v m => if m then fill_value else v) tdata tmask

/-- Iterating the masked array `tide` in the write loop (line 276):
masked positions yield the masked constant, unmasked positions yield the
stored datum. -/
def tide_elems (tdata : List ℚ) (tmask : List Bool) : List MaskedElem :=
  List.zipWith (fun v m => if m then MaskedElem.masked else MaskedElem.val v) tdata tmask

/-- One output record (line 277): time with 6 decimals, latitude with 2,
longitude with 2, elevation with 2, comma separated, newline
terminated. -/
def format_line (d lt ln : ℚ) (td : MaskedElem) : String :=
  fmt_fixed 6 d ++ "," ++ fmt_fixed 2 lt ++ "," ++ fmt_fixed 2 ln ++ "," ++ fmt_masked 2 td ++ "\n"

/-- The write loop (lines 275-277): zip the time, latitude and longitude
columns with the tide array (Python `zip` truncates to the shortest
input, as `List.zip` does) and write one formatted line per tuple.  The
written file is modelled as the list of written lines. -/
def output_lines (MJD lat lon : List ℚ) (tide : List MaskedElem) : List String :=
  (MJD.zip (lat.zip (lon.zip tide))).map
    (fun x => format_line x.1 x.2.1 x.2.2.1 x.2.2.2)

/-- The complex phase and harmonic constant computed at lines 256-259
for one (amplitude, phase-in-degrees) entry, as complex numbers:
`cph = -1j * ph * pi / 180` and `hc = amp * exp(cph)` (numpy applies
them elementwise over the extractor arrays; entries of `HcArray.data`
carry the (amp, ph) pair this value is formed from). -/
noncomputable def cphC (ph : ℝ) : ℂ := -Complex.I * (ph : ℂ) * (Real.pi : ℂ) / 180

/-- Complex harmonic constant of one entry: `hc = amp * exp(cph)`. -/
noncomputable def hcC (amp ph : ℝ) : ℂ := (amp : ℂ) * Complex.exp (cphC ph)

/-- Lines 256-259 at the array level: the harmonic-constant masked array
passed to the synthesizer and the inference, carrying the elementwise
(amplitude, phase) pairs and the extractor mask. -/
def make_hc (amp ph : List (List ℚ)) (mask : List (List Bool)) : HcArray :=
  ⟨List.zipWith (List.zipWith Prod.mk) amp ph, mask⟩

/-- Argument bundle of the call to `predict_tide_drift` (lines 266-267):
times `dinput['MJD'] - 48622.0` (days relative to Jan 1, 1992), the
harmonic constants, the constituent list, `DELTAT=deltat`,
`CORRECTIONS=model_format`. -/
def predict_args (MJD : List ℚ) (hc : HcArray) (c : List String)
    (deltat : List ℚ) (model_format : String) : SynthArgs :=
  ⟨MJD.map (fun d => d - 48622), hc, c, deltat, model_format⟩

/-- Argument bundle of the call to `infer_minor_corrections` (lines
268-269): times `dinput['MJD'] - 48622.0`, the harmonic constants, the
constituent list, `DELTAT=deltat`, `CORRECTIONS=model_format`. -/
def infer_args (MJD : List ℚ) (hc : HcArray) (c : List String)
    (deltat : List ℚ) (model_format : String) : SynthArgs :=
  ⟨MJD.map (fun d => d - 48622), hc, c, deltat, model_format⟩

/-- Delta-time resolution per model format (lines 244, 249, 253-254):
formats OTIS, ATLAS and netcdf bind `deltat = np.zeros_like(MJD)`; the
GOT branch resolves `deltat` with `calc_delta_time` over the auxiliary
table `tide_dir/deltat.data` at the query times. -/
def deltat_for (cb : Collab) (tide_dir model_format : String) (MJD : List ℚ) : List ℚ :=
  if model_format = "OTIS" ∨ model_format = "ATLAS" then MJD.map (fun _ => 0)
  else if model_format = "netcdf" then MJD.map (fun _ => 0)
  else cb.calc_delta_time (path_join tide_dir "deltat.data") MJD

/-- Lines 256-277 common to all extraction branches: build the harmonic
constant array, the output mask, call the synthesizer and the inference
with their argument bundles, add the minor correction into the data,
overwrite masked data with the fill value, and produce the written
lines. -/
def synthesize (cb : Collab) (MJD lat lon : List ℚ) (amp ph : List (List ℚ))
    (mask : List (List Bool)) (c : List String) (deltat : List ℚ)
    (model_format : String) : List String :=
  let hc := make_hc amp ph mask
  let tmask := tide_mask mask
  let pa := predict_args MJD hc c deltat model_format
  let tdata := cb.predict_tide_drift pa.t pa.hc pa.c pa.deltat pa.corrections
  let ia := infer_args MJD hc c deltat model_format
  let minor := cb.infer_minor_corrections ia.t ia.hc ia.c ia.deltat ia.corrections
  let tdata2 := tide_data_with_minor tdata minor
  let tdata3 := tide_data_filled tdata2 tmask
  output_lines MJD lat lon (tide_elems tdata3 tmask)

/-- Lines 240-277 on the extracted columns: select the model, run the
matching extraction branch with the delta-time of that branch, and
synthesize the output lines.  An unmatched `TIDE_MODEL` leaves
`model_format` unbound and line 241 raises `NameError` before any
collaborator is consulted and before the output file is opened. -/
def compute_core (cb : Collab) (tide_dir TIDE_MODEL : String)
    (MJD lat lon : List ℚ) : Except Err (List String) :=
  match model_select tide_dir TIDE_MODEL with
  | none => .error .name_error_model_format
  | some d =>
    if d.model_format = "OTIS" ∨ d.model_format = "ATLAS" then
      let eo := cb.extract_tidal_constants lon lat (d.grid_file.getD "")
        (d.model_file.getD "") (d.EPSG.getD "") (d.type.getD "") "spline"
      let deltat := deltat_for cb tide_dir d.model_format MJD
      .ok (synthesize cb MJD lat lon eo.amp eo.ph eo.mask eo.c deltat d.model_format)
    else if d.model_format = "netcdf" then
      let eo := cb.extract_netcdf_constants lon lat (d.model_directory.getD "")
        (d.grid_file.getD "") (d.model_files.getD []) (d.type.getD "") "spline"
        (d.SCALE.getD 1)
      let deltat := deltat_for cb tide_dir d.model_format MJD
      .ok (synthesize cb MJD lat lon eo.amp eo.ph eo.mask eo.c deltat d.model_format)
    else if d.model_format = "GOT" then
      let go := cb.extract_GOT_constants lon lat (d.model_directory.getD "")
        (d.model_files.getD []) "spline" (d.SCALE.getD 1)
      let deltat := deltat_for cb tide_dir d.model_format MJD
      .ok (synthesize cb MJD lat lon go.amp go.ph go.mask (d.c.getD []) deltat d.model_format)
    else .error .name_error_amp

/-- The function `compute_tidal_elevations` (lines 86-279) on a parsed
input batch: extract the `MJD`, `lat` and `lon` columns of the record
array (the fourth column `h` is parsed at line 91 but never read
afterwards) and run the pipeline.  File-permission handling (line 279)
is plumbing outside the embedding; the written file is the returned
line list. -/
def compute_tidal_elevations (cb : Collab) (tide_dir TIDE_MODEL : String)
    (dinput : List Row) : Except Err (List String) :=
  compute_core cb tide_dir TIDE_MODEL (dinput.map (fun r => r.MJD))
    (dinput.map (fun r => r.lat)) (dinput.map (fun r => r.lon))

/-- Python list indexing `l[i]`: the element, or `IndexError` when out
of range. -/
def getitem (l : List String) (i : Nat) : Except Err String :=
  match l.get? i with
  | some s => .ok s
  | none => .error .index_error

/-- Positional-argument handling of `main` (lines 311-317): raise the
explicit exception when `arglist` is empty, otherwise read
`arglist[0]` and `arglist[1]` (the latter raises `IndexError` when only
one positional argument was given).  Tilde expansion of the two paths is
environment plumbing modelled as the identity. -/
def main_positional (arglist : List String) : Except Err (String × String) :=
  if arglist.isEmpty then .error .no_system_arguments
  else do
    let input_file ← getitem arglist 0
    let output_file ← getitem arglist 1
    .ok (input_file, output_file)

/-- Model of `os.path.dirname`: the path up to the last separator. -/
def dirname (s : String) : String :=
  String.intercalate "/" ((s.splitOn "/").dropLast)

/-- The `main` entry point (lines 289-323) with the default option
values (no option flags given): positional arguments are resolved
first; only on success is the prediction pipeline run, with
`TIDE_MODEL` defaulting to CATS2008 and the tide directory defaulting to
the directory of the input file.  `read_csv` stands for the
`np.loadtxt` parse of the input file (line 91). -/
def main_run (cb : Collab) (read_csv : String → List Row)
    (arglist : List String) : Except Err (List String) :=
  match main_positional arglist with
  | .error e => .error e
  | .ok (input_file, _output_file) =>
    compute_tidal_elevations cb (dirname input_file) "CATS2008" (read_csv input_file)

/-- Concrete extractor output used to evaluate the pipeline on a
two-point batch with one required constituent: the first point valid,
the second point with its validity bit false (mask bit set). -/
def eo_test : ExtractOut :=
  ⟨[[12/10], [12/10]], [[30], [30]], [[false], [true]], [10, 10], ["m2"]⟩

/-- Concrete collaborator instance for evaluating the pipeline on the
two-point batch of `eo_test`: the synthesizer reports elevations 3/2 and
4, the minor-constituent inference reports corrections 1/4 and 1/4. -/
def cb_test : Collab where
  extract_tidal_constants := fun _ _ _ _ _ _ _ => eo_test
  extract_netcdf_constants := fun _ _ _ _ _ _ _ _ => eo_test
  extract_GOT_constants := fun _ _ _ _ _ _ => ⟨eo_test.amp, eo_test.ph, eo_test.mask⟩
  calc_delta_time := fun _ t => t.map (fun _ => 0)
  predict_tide_drift := fun _ _ _ _ _ => [3/2, 4]
  infer_minor_corrections := fun _ _ _ _ _ => [1/4, 1/4]

/-- Concrete collaborator instance for a one-point fully valid batch:
the synthesizer reports elevation 1/4, the inference 1/50. -/
def cb_test1 : Collab where
  extract_tidal_constants := fun _ _ _ _ _ _ _ => ⟨[[1]], [[0]], [[false]], [10], ["m2"]⟩
  extract_netcdf_constants := fun _ _ _ _ _ _ _ _ => ⟨[[1]], [[0]], [[false]], [10], ["m2"]⟩
  extract_GOT_constants := fun _ _ _ _ _ _ => ⟨[[1]], [[0]], [[false]]⟩
  calc_delta_time := fun _ t => t.map (fun _ => 0)
  predict_tide_drift := fun _ _ _ _ _ => [1/4]
  infer_minor_corrections := fun _ _ _ _ _ => [1/50]

/-- Index lookup distributes over `List.zipWith`: the entry at `i` is
`f` of the two entries at `i` when both exist, and nothing otherwise. -/
theorem zipWith_getElem_opt {α β γ : Type} (f : α → β → γ) :
    ∀ (l1 : List α) (l2 : List β) (i : Nat),
      (List.zipWith f l1 l2)[i]? = (l1[i]?).bind (fun a => (l2[i]?).map (fun b => f a b))
  | [], _, _ => by simp
  | _ :: _, [], _ => by simp
  | a :: t1, b :: t2, 0 => by simp
  | a :: t1, b :: t2, n + 1 => by
    simpa using zipWith_getElem_opt f t1 t2 n

/-- C2: for every observation point, the output mask bit produced by
line 265 is the disjunction over that point's constituent mask bits
(numpy `np.any` along axis 1), so the point's output mask is set
(invalid) if and only if at least one constituent sample for the point
is invalid, and the point is valid (mask unset) if and only if every
constituent sample is valid - the logical AND of the validity bits. -/
theorem c2_output_mask_is_and_of_validity :
    (∀ (M : List (List Bool)) (i : Nat),
        (tide_mask M)[i]? = (M[i]?).map (fun row => row.any (fun b => b))) ∧
    (∀ row : List Bool,
        ((row.any (fun b => b) = true) ↔ ∃ b ∈ row, b = true) ∧
        ((row.any (fun b => b) = false) ↔ ∀ b ∈ row, b = false)) := by
  constructor
  · intro M i
    simp [tide_mask, List.getElem?_map]
  · intro row
    constructor
    · simp [List.any_eq_true]
    · simp [List.any_eq_false]

/-- C3: the complex harmonic constant of lines 256-259 is
`hc = A * exp(-i * ph * pi / 180)`: the phase in degrees is negated
before conversion to radians.  The second part states that the
harmonic-constant array built by `make_hc` and passed to the
synthesizer pairs, point by point and constituent by constituent, the
extractor amplitude entry with the extractor phase entry this complex
value is formed from. -/
theorem c3_phase_negated_before_radians :
    (∀ (amp ph : ℝ), hcC amp ph =
        (amp : ℂ) * Complex.exp (-(Complex.I * ((ph : ℂ) * (Real.pi : ℂ) / 180)))) ∧
    (∀ (amp ph : List (List ℚ)) (mask : List (List Bool)) (i k : Nat),
        (((make_hc amp ph mask).data[i]?).bind (fun r => r[k]?)) =
          ((amp[i]?).bind (fun r => r[k]?)).bind
            (fun a => ((ph[i]?).bind (fun r => r[k]?)).map (fun p => (a, p)))) := by
  constructor
  · intro amp ph
    unfold hcC cphC
    congr 2
    ring
  · intro amp ph mask i k
    show ((List.zipWith (List.zipWith Prod.mk) amp ph)[i]?).bind (fun r => r[k]?) = _
    rw [zipWith_getElem_opt]
    cases amp[i]? with
    | none => simp
    | some ra =>
      cases ph[i]? with
      | none => simp
      | some rb => simp [zipWith_getElem_opt]

/-- C4: the harmonic synthesizer and the minor-constituent inference are
called with identical argument bundles: the same model-relative times
equal to the Modified Julian Day minus 48622 (days relative to the
Jan 1, 1992 reference epoch), the same harmonic constants and
constituent list, the same delta-time array, and the same
`CORRECTIONS` model-format selector (lines 266-269). -/
theorem c4_predict_and_infer_same_arguments :
    (∀ (MJD : List ℚ) (hc : HcArray) (c : List String) (deltat : List ℚ)
        (model_format : String),
        predict_args MJD hc c deltat model_format =
          infer_args MJD hc c deltat model_format) ∧
    (∀ (MJD : List ℚ) (hc : HcArray) (c : List String) (deltat : List ℚ)
        (model_format : String),
        (predict_args MJD hc c deltat model_format).t = MJD.map (fun d => d - 48622) ∧
        (infer_args MJD hc c deltat model_format).t = MJD.map (fun d => d - 48622) ∧
        (predict_args MJD hc c deltat model_format).deltat = deltat ∧
        (infer_args MJD hc c deltat model_format).deltat = deltat ∧
        (predict_args MJD hc c deltat model_format).corrections = model_format ∧
        (infer_args MJD hc c deltat model_format).corrections = model_format) ∧
    (∀ (MJD : List ℚ) (hc : HcArray) (c : List String) (deltat : List ℚ)
        (model_format : String) (i : Nat),
        (predict_args MJD hc c deltat model_format).t[i]? =
          (MJD[i]?).map (fun d => d - 48622)) := by
  refine ⟨fun _ _ _ _ _ => rfl, fun _ _ _ _ _ => ⟨rfl, rfl, rfl, rfl, rfl, rfl⟩, ?_⟩
  intro MJD hc c deltat model_format i
  simp [predict_args, List.getElem?_map]

/-- An identifier outside the catalog matches no arm of the dispatch
chain, so the selection yields nothing (the Python local `model_format`
stays unbound). -/
theorem model_select_eq_none (tide_dir m : String) (h : m ∉ catalog_ids) :
    model_select tide_dir m = none := by
  simp only [catalog_ids, List.mem_cons, List.not_mem_nil, or_false, not_or] at h
  obtain ⟨h1, h2, h3, h4, h5, h6, h7, h8, h9, h10, h11, h12, h13, h14, h15, h16, h17⟩ := h
  simp only [model_select, if_neg h1, if_neg h2, if_neg h3, if_neg h4, if_neg h5,
    if_neg h6, if_neg h7, if_neg h8, if_neg h9, if_neg h10, if_neg h11, if_neg h12,
    if_neg h13, if_neg h14, if_neg h15, if_neg h16, if_neg h17]

/-- C5: for the formats that do not require delta-time (OTIS, ATLAS,
netcdf) the delta-time array is exactly zero for every query point
(lines 244 and 249), the GOT format resolves delta-time through the
`calc_delta_time` table lookup over the query times (lines 253-254),
and every catalogued model has one of these four formats (so the lookup
is used only for GOT-format models). -/
theorem c5_deltat_zero_unless_GOT :
    (∀ (cb : Collab) (tide_dir : String) (MJD : List ℚ) (fmt : String),
        fmt = "OTIS" ∨ fmt = "ATLAS" ∨ fmt = "netcdf" →
        deltat_for cb tide_dir fmt MJD = MJD.map (fun _ => 0)) ∧
    (∀ (cb : Collab) (tide_dir : String) (MJD : List ℚ),
        deltat_for cb tide_dir "GOT" MJD =
          cb.calc_delta_time (path_join tide_dir "deltat.data") MJD) ∧
    (∀ (tide_dir m : String) (d : TMDescriptor),
        model_select tide_dir m = some d →
        d.model_format = "OTIS" ∨ d.model_format = "ATLAS" ∨
        d.model_format = "netcdf" ∨ d.model_format = "GOT") := by
  refine ⟨?_, ?_, ?_⟩
  · rintro cb tide_dir MJD fmt (rfl | rfl | rfl) <;> simp [deltat_for]
  · intro cb tide_dir MJD
    simp [deltat_for]
  · intro tide_dir m d h
    by_cases hm : m ∈ catalog_ids
    · simp only [catalog_ids, List.mem_cons, List.not_mem_nil, or_false] at hm
      rcases hm with rfl | rfl | rfl | rfl | rfl | rfl | rfl | rfl | rfl | rfl | rfl |
        rfl | rfl | rfl | rfl | rfl | rfl <;>
        (simp [model_select] at h; subst h;
          first
          | exact Or.inl rfl
          | exact Or.inr (Or.inl rfl)
          | exact Or.inr (Or.inr (Or.inl rfl))
          | exact Or.inr (Or.inr (Or.inr rfl)))
    · rw [model_select_eq_none tide_dir m hm] at h
      exact Option.noConfusion h

/-- Witness for C5 at concrete inputs: the ATLAS format yields the
all-zero delta-time array, and the descriptor selected for the GOT4.7
model has one of the four catalogued formats. -/
theorem c5_witness :
    deltat_for cb_test "tides" "ATLAS" [58000] = List.map (fun _ => 0) [58000] ∧
    (((model_select "tides" "GOT4.7").getD {}).model_format = "OTIS" ∨
      ((model_select "tides" "GOT4.7").getD {}).model_format = "ATLAS" ∨
      ((model_select "tides" "GOT4.7").getD {}).model_format = "netcdf" ∨
      ((model_select "tides" "GOT4.7").getD {}).model_format = "GOT") := by
  constructor
  · exact c5_deltat_zero_unless_GOT.1 cb_test "tides" [58000] "ATLAS" (Or.inr (Or.inl rfl))
  · exact c5_deltat_zero_unless_GOT.2.2 "tides" "GOT4.7" _ rfl

/-- C6: the minor-constituent correction is added elementwise into the
data array (line 270) before masked entries are overwritten with the
fill value (line 272), so at every point whose mask bit is unset
(valid) the element reaching the write loop is the synthesizer result
plus the minor correction. -/
theorem c6_valid_output_is_predict_plus_minor (tdata minor : List ℚ)
    (tmask : List Bool) (i : Nat) (p m : ℚ)
    (hp : tdata[i]? = some p) (hm : minor[i]? = some m)
    (hmask : tmask[i]? = some false) :
    (tide_elems (tide_data_filled (tide_data_with_minor tdata minor) tmask) tmask)[i]? =
      some (MaskedElem.val (p + m)) := by
  simp [tide_elems, tide_data_filled, tide_data_with_minor, zipWith_getElem_opt,
    hp, hm, hmask]

/-- Witness for C6 at a concrete valid point. -/
theorem c6_witness :
    (tide_elems (tide_data_filled (tide_data_with_minor [3/2] [1/4]) [false]) [false])[0]? =
      some (MaskedElem.val (3/2 + 1/4)) :=
  c6_valid_output_is_predict_plus_minor [3/2] [1/4] [false] 0 (3/2) (1/4) rfl rfl rfl

/-- C9: calling the pipeline with a `TIDE_MODEL` string that is not one
of the catalogued identifiers fails fatally at once - the unmatched
dispatch chain leaves `model_format` unbound and line 241 raises
`NameError` - for every collaborator instance (so no extractor,
synthesizer or table lookup is consulted) and the error is returned
instead of any output lines (the output file is never opened). -/
theorem c9_unknown_model_fails_without_output (cb : Collab)
    (tide_dir m : String) (dinput : List Row) (h : m ∉ catalog_ids) :
    compute_tidal_elevations cb tide_dir m dinput = .error .name_error_model_format := by
  unfold compute_tidal_elevations compute_core
  rw [model_select_eq_none tide_dir m h]

/-- Witness for C9 at a concrete unknown identifier. -/
theorem c9_witness :
    compute_tidal_elevations cb_test "data" "TPXO99-atlas" [⟨58000, 70, -40, 5⟩] =
      .error .name_error_model_format :=
  c9_unknown_model_fails_without_output cb_test "data" "TPXO99-atlas"
    [⟨58000, 70, -40, 5⟩] (by decide)

/-- C10: the written output depends only on the `MJD`, `lat` and `lon`
columns of the parsed input: two batches that agree on those three
columns produce identical results even when the fourth column `h`
differs arbitrarily (the input elevation is parsed at line 91 but never
read afterwards). -/
theorem c10_output_independent_of_h (cb : Collab) (tide_dir TIDE_MODEL : String)
    (r1 r2 : List Row)
    (h : r1.map (fun r => (r.MJD, r.lat, r.lon)) = r2.map (fun r => (r.MJD, r.lat, r.lon))) :
    compute_tidal_elevations cb tide_dir TIDE_MODEL r1 =
      compute_tidal_elevations cb tide_dir TIDE_MODEL r2 := by
  have hM : r1.map (fun r => r.MJD) = r2.map (fun r => r.MJD) := by
    have h2 := congrArg (List.map (fun x : ℚ × ℚ × ℚ => x.1)) h
    simpa [List.map_map, Function.comp_def] using h2
  have hla : r1.map (fun r => r.lat) = r2.map (fun r => r.lat) := by
    have h2 := congrArg (List.map (fun x : ℚ × ℚ × ℚ => x.2.1)) h
    simpa [List.map_map, Function.comp_def] using h2
  have hlo : r1.map (fun r => r.lon) = r2.map (fun r => r.lon) := by
    have h2 := congrArg (List.map (fun x : ℚ × ℚ × ℚ => x.2.2)) h
    simpa [List.map_map, Function.comp_def] using h2
  unfold compute_tidal_elevations
  rw [hM, hla, hlo]

/-- Witness for C10: two one-point batches differing only in the input
elevation column produce the same result. -/
theorem c10_witness :
    compute_tidal_elevations cb_test "data" "CATS2008" [⟨58000, 70, -40, 111/10⟩] =
      compute_tidal_elevations cb_test "data" "CATS2008" [⟨58000, 70, -40, -5⟩] :=
  c10_output_independent_of_h cb_test "data" "CATS2008"
    [⟨58000, 70, -40, 111/10⟩] [⟨58000, 70, -40, -5⟩] rfl

/-- C8 counterexample: with exactly one positional argument the entry
point fails with the generic `IndexError` from `arglist[1]` (line 317),
not with the deliberate usage exception of line 313, refuting the claim
that fewer than two positional arguments always fail with a usage
error. -/
theorem c8_counterexample :
    main_positional ["input.csv"] = .error .index_error ∧
    main_run cb_test (fun _ => []) ["input.csv"] = .error .index_error ∧
    Err.index_error ≠ Err.no_system_arguments := by
  exact ⟨rfl, rfl, by decide⟩

/-- C8 amended: with fewer than two positional arguments the entry
point always fails before the prediction pipeline runs, but the kind of
failure differs: an empty positional list raises the explicit usage
exception of line 313, while exactly one positional argument raises the
out-of-range `IndexError` of line 317. -/
theorem c8_fails_before_pipeline (cb : Collab) (read_csv : String → List Row)
    (arglist : List String) (h : arglist.length < 2) :
    (main_run cb read_csv arglist = .error .no_system_arguments ∨
      main_run cb read_csv arglist = .error .index_error) ∧
    (arglist = [] → main_run cb read_csv arglist = .error .no_system_arguments) ∧
    (∀ a, arglist = [a] → main_run cb read_csv arglist = .error .index_error) := by
  match arglist with
  | [] =>
    refine ⟨Or.inl rfl, fun _ => rfl, ?_⟩
    intro a ha
    exact absurd ha (by simp)
  | [a] =>
    refine ⟨Or.inr rfl, ?_, fun b hb => rfl⟩
    intro ha
    exact absurd ha (by simp)
  | a :: b :: t =>
    exact absurd h (by simp)

/-- Witness for C8 at a concrete one-argument command line. -/
theorem c8_witness :
    main_run cb_test (fun _ => []) ["only.csv"] = .error .index_error :=
  (c8_fails_before_pipeline cb_test (fun _ => []) ["only.csv"] (by decide)).2.2
    "only.csv" rfl

/-- C1: on a two-point batch whose second point has its only
constituent validity bit false, the written line for the valid point
carries the synthesized numeric value (synthesizer plus minor
correction, here 1.75), but the line for the invalid point carries the
masked placeholder string, not the fill value: although line 272 stores
the fill value into `tide.data`, the write loop iterates the masked
array itself, which yields the masked constant at masked positions, and
formatting the masked constant never produces the fill value.  The
last part records what the fill value would have formatted as. -/
theorem c1_invalid_point_not_written_as_fill :
    compute_tidal_elevations cb_test "data" "CATS2008"
        [⟨58000, 70, -40, 5⟩, ⟨58001, 715/10, -4025/100, 6⟩] =
      .ok ["58000.000000,70.00,-40.00,1.75\n", "58001.000000,71.50,-40.25,--\n"] ∧
    "58001.000000,71.50,-40.25,--\n" ≠ "58001.000000,71.50,-40.25,-9999.00\n" ∧
    fmt_fixed 2 fill_value = "-9999.00" := by
  refine ⟨by with_unfolding_all rfl, by decide, by with_unfolding_all rfl⟩

/-- C7: the write loop emits exactly one line per zipped tuple, in
input order - the line count is the minimum of the column lengths
(all equal to the batch size for conforming collaborator outputs) and
the line at index `i` is formatted from the index-`i` entries of the
four columns; batches of size 0 and 1 produce 0 and 1 lines.  The last
conjunct shows the claimed all-numeric field format failing on an
invalid point: the elevation field of the second line is the masked
placeholder, not a two-decimal number. -/
theorem c7_one_line_per_observation_in_order :
    (∀ (M la lo : List ℚ) (td : List MaskedElem),
        (output_lines M la lo td).length =
          min M.length (min la.length (min lo.length td.length))) ∧
    (∀ (M la lo : List ℚ) (td : List MaskedElem) (i : Nat),
        (output_lines M la lo td)[i]? =
          (M[i]?).bind (fun d => (la[i]?).bind (fun lt => (lo[i]?).bind (fun ln =>
            (td[i]?).map (fun t => format_line d lt ln t))))) ∧
    compute_tidal_elevations cb_test "data" "CATS2008" [] = .ok [] ∧
    compute_tidal_elevations cb_test1 "data" "GOT4.7" [⟨58000, 70, -40, 1⟩] =
      .ok ["58000.000000,70.00,-40.00,0.27\n"] ∧
    compute_tidal_elevations cb_test "data" "CATS2008"
        [⟨59000, -655/10, 110, 0⟩, ⟨59001, -66, 1105/10, 3⟩] =
      .ok ["59000.000000,-65.50,110.00,1.75\n", "59001.000000,-66.00,110.50,--\n"] := by
  refine ⟨?_, ?_, by with_unfolding_all rfl, by with_unfolding_all rfl,
    by with_unfolding_all rfl⟩
  · intro M la lo td
    simp [output_lines, List.length_zip]
  · intro M la lo td i
    simp only [output_lines, List.zip, List.getElem?_map, zipWith_getElem_opt]
    cases M[i]? with
    | none => simp
    | some d =>
      cases la[i]? with
      | none => simp
      | some lt =>
        cases lo[i]? with
        | none => simp
        | some ln =>
          cases td[i]? with
          | none => simp
          | some t => simp
